import Mathlib

/-!
# Verification of the SGM depth-map engine (`src/aliceVision/depthMap/Sgm.cpp`)

Shallow embedding of the `aliceVision::depthMap::Sgm` class: the engine
constructor (buffer allocation), the memory-consumption queries, and the
per-tile pipeline `sgmRc` (depth upload, similarity-volume fusion, optional
volume optimization, best-depth retrieval).

Device buffers are modelled as total functions from indices to cell values;
buffer allocation is modelled by a record of allocated dimensions carried in
the engine state, so that "processing never reallocates" is a provable frame
property rather than a typing artifact.  The CUDA kernels called by the
orchestration layer are not part of the translated source file:
`cuda_volumeComputeSimilarity` and `cuda_volumeInitialize` are modelled from
the spec (see their doc comments), while the optimization and retrieval
kernels — whose internal behavior no claim depends on — are abstract function
parameters bundled in `DeviceKernels`, so the theorems about the orchestration
hold for every kernel implementation.  The process-wide `DeviceCache` is
modelled by a trace of `requestCamera (cameraId, scale)` calls accumulated in
the engine state.  Logging and diagnostic file exports are I/O only and do not
touch engine buffers; they are omitted.  The CUDA stream orders operations
sequentially, which the state-passing style models directly.
-/

namespace AliceVision

/-- Half-open index range, modelling `aliceVision::Range { begin, end }`
(`lo` = `begin`, `hi` = `end`; renamed because `end` is a Lean keyword). -/
structure VRange where
  lo : Nat
  hi : Nat
deriving DecidableEq, Repr

/-- 2-D region of interest, modelling `aliceVision::ROI` (a pair of pixel
ranges in the reference image). -/
structure ROI where
  x : VRange
  y : VRange
deriving DecidableEq, Repr

/-- Width of a region of interest. -/
def roiWidth (roi : ROI) : Nat := roi.x.hi - roi.x.lo

/-- Height of a region of interest. -/
def roiHeight (roi : ROI) : Nat := roi.y.hi - roi.y.lo

/-- Ceiling division on naturals: models `std::ceil(a / float(b))` for
nonnegative integer `a` and positive integer `b`. -/
def divUp (a b : Nat) : Nat := (a + b - 1) / b

/-- Modelled from the spec: the tile-boundary helper `downscaleROI`
(declared in `depthMapUtils.hpp`, not part of the translated source) maps a
full-resolution region of interest to the matching-resolution grid by
dividing both ranges by the downscale factor (floor on the begin, ceiling on
the end, so the downscaled region covers the original). -/
def downscaleROI (roi : ROI) (downscale : Nat) : ROI :=
  { x := { lo := roi.x.lo / downscale, hi := divUp roi.x.hi downscale }
  , y := { lo := roi.y.lo / downscale, hi := divUp roi.y.hi downscale } }

/-- SGM configuration, modelling the fields of `SgmParams` read by `Sgm.cpp`. -/
structure SgmParams where
  scale : Nat
  stepXY : Nat
  maxDepths : Nat
  doSgmOptimizeVolume : Bool
  exportIntermediateResults : Bool
  filteringAxes : String
deriving DecidableEq, Repr

/-- Tile geometry, modelling the fields of `mvsUtils::TileParams` read by
`Sgm.cpp` (full-resolution tile width and height). -/
structure TileParams where
  width : Nat
  height : Nat
deriving DecidableEq, Repr

/-- Camera/view metadata accessor, modelling the part of
`mvsUtils::MultiViewParams` read by `Sgm.cpp`: the camera-index-to-view-id
map and the camera count. -/
structure MultiViewParams where
  getViewId : Nat → Nat
  ncams : Nat

/-- One tile of work, modelling `Tile`: reference camera index, ordered
target-camera indices, region of interest, and the total tile count
(`nbTiles`, used only by the diagnostic exports). -/
structure Tile where
  rc : Nat
  sgmTCams : List Nat
  roi : ROI
  nbTiles : Nat

/-- Per-tile depth hypotheses, modelling the part of `SgmDepthList` read by
`Sgm.cpp`: the ordered depth values (opaque to this file — they are only
copied — so their carrier is `Int`), and per target camera the pair
`(firstDepthIndex, depthCount)` (`getDepthsTcLimits()[tci].x / .y`) naming
the contiguous hypothesis range that camera can score. -/
structure SgmDepthList where
  depths : List Int
  depthsTcLimits : List (Nat × Nat)

/-- A similarity volume cell store: `(vx, vy, depthIndex) ↦ quantized cost`,
tile-local coordinates, 255 = worst. -/
def Volume : Type := Nat → Nat → Nat → Nat

/-- A depth/similarity output map: `(vx, vy) ↦ (depth, similarity)`.  The
two components are opaque to this file (produced by the retrieval kernel). -/
def DepthSimMap : Type := Nat → Nat → Int × Int

/-- The engine, modelling the `Sgm` class members fixed at construction:
`_mp`, `_tileParams`, `_sgmParams` (the CUDA stream orders operations
sequentially and is modelled by the state-passing itself). -/
structure Sgm where
  mp : MultiViewParams
  tileParams : TileParams
  sgmParams : SgmParams

/-- Dimensions of every buffer the `Sgm` constructor allocates, as recorded
at allocation time.  Optional buffers (the three volume-optimization
accumulation buffers) are `none` when not allocated. -/
structure SgmAllocation where
  depths_hmh_dim : Nat × Nat
  depths_dmp_dim : Nat × Nat
  depthSimMap_dim : Nat × Nat
  volumeBestSim_dim : Nat × Nat × Nat
  volumeSecBestSim_dim : Nat × Nat × Nat
  volumeSliceAccA_dim : Option (Nat × Nat)
  volumeSliceAccB_dim : Option (Nat × Nat)
  volumeAxisAcc_dim : Option (Nat × Nat)
deriving DecidableEq, Repr

/-- The mutable engine state: the allocation record plus the observable
buffer contents (`_depths_hmh`, `_depths_dmp`, the two similarity volumes,
the depth/sim map) and the trace of `DeviceCache::requestCamera` calls
`(cameraId, scale)` issued so far.  The optimization accumulation buffers
are pure scratch — no claim observes their contents — so only their
dimensions are tracked. -/
structure SgmBuffers where
  alloc : SgmAllocation
  depths_hmh : Nat → Int
  depths_dmp : Nat → Int
  volumeBestSim : Volume
  volumeSecBestSim : Volume
  depthSimMap : DepthSimMap
  deviceCacheTrace : List (Nat × Nat)

/-- The `Sgm` constructor (`Sgm::Sgm`): computes the maximum tile dimensions
in the matching resolution and allocates every buffer, the optimization
accumulation buffers only when `doSgmOptimizeVolume` is set.  Buffer
contents start uninitialized; the model picks the all-zero content. -/
def Sgm.mkBuffers (eng : Sgm) : SgmBuffers :=
  let downscale := eng.sgmParams.scale * eng.sgmParams.stepXY
  let maxTileWidth := divUp eng.tileParams.width downscale
  let maxTileHeight := divUp eng.tileParams.height downscale
  let maxTileSide := max maxTileWidth maxTileHeight
  { alloc :=
      { depths_hmh_dim := (eng.sgmParams.maxDepths, 1)
      , depths_dmp_dim := (eng.sgmParams.maxDepths, 1)
      , depthSimMap_dim := (maxTileWidth, maxTileHeight)
      , volumeBestSim_dim := (maxTileWidth, maxTileHeight, eng.sgmParams.maxDepths)
      , volumeSecBestSim_dim := (maxTileWidth, maxTileHeight, eng.sgmParams.maxDepths)
      , volumeSliceAccA_dim :=
          if eng.sgmParams.doSgmOptimizeVolume then
            some (maxTileSide, eng.sgmParams.maxDepths) else none
      , volumeSliceAccB_dim :=
          if eng.sgmParams.doSgmOptimizeVolume then
            some (maxTileSide, eng.sgmParams.maxDepths) else none
      , volumeAxisAcc_dim :=
          if eng.sgmParams.doSgmOptimizeVolume then
            some (maxTileSide, 1) else none }
  , depths_hmh := fun _ => 0
  , depths_dmp := fun _ => 0
  , volumeBestSim := fun _ _ _ => 0
  , volumeSecBestSim := fun _ _ _ => 0
  , depthSimMap := fun _ _ => (0, 0)
  , deviceCacheTrace := [] }

/-- Memory environment: the device allocator's row-pitch function (padded
row bytes for a requested row byte count) and the element sizes of the four
buffer element types (`float` depths, `float2` depth/sim cells, `TSim`
volume cells, `TSimAcc` accumulation cells).  These live outside the
translated source, so they are parameters. -/
structure MemEnv where
  pitch : Nat → Nat
  sizeofDepth : Nat
  sizeofDepthSim : Nat
  sizeofTSim : Nat
  sizeofTSimAcc : Nat

/-- `getBytesPadded` of a pitched 2-D device buffer: padded row bytes times
row count. -/
def bytesPadded2 (m : MemEnv) (elemSize : Nat) (dim : Nat × Nat) : Nat :=
  m.pitch (elemSize * dim.fst) * dim.snd

/-- `getBytesPadded` of a pitched 3-D device buffer. -/
def bytesPadded3 (m : MemEnv) (elemSize : Nat) (dim : Nat × Nat × Nat) : Nat :=
  m.pitch (elemSize * dim.fst) * dim.snd.fst * dim.snd.snd

/-- `getBytesUnpadded` of a 2-D buffer: element size times element count. -/
def bytesUnpadded2 (elemSize : Nat) (dim : Nat × Nat) : Nat :=
  elemSize * dim.fst * dim.snd

/-- `getBytesUnpadded` of a 3-D buffer. -/
def bytesUnpadded3 (elemSize : Nat) (dim : Nat × Nat × Nat) : Nat :=
  elemSize * dim.fst * dim.snd.fst * dim.snd.snd

/-- Byte count of an optionally allocated 2-D buffer (0 when unallocated). -/
def optBytes (f : Nat × Nat → Nat) : Option (Nat × Nat) → Nat
  | some dim => f dim
  | none => 0

/-- `Sgm::getDeviceMemoryConsumption`: padded byte total of `_depths_dmp`,
`_depthSimMap_dmp`, the two similarity volumes, and — only when
`doSgmOptimizeVolume` is set — the three optimization accumulation buffers,
converted to megabytes.  (`_depths_hmh` is not summed by the source.) -/
def Sgm.getDeviceMemoryConsumption (eng : Sgm) (m : MemEnv) (a : SgmAllocation) : ℚ :=
  let bytes :=
    bytesPadded2 m m.sizeofDepth a.depths_dmp_dim
    + bytesPadded2 m m.sizeofDepthSim a.depthSimMap_dim
    + bytesPadded3 m m.sizeofTSim a.volumeBestSim_dim
    + bytesPadded3 m m.sizeofTSim a.volumeSecBestSim_dim
    + (if eng.sgmParams.doSgmOptimizeVolume then
        optBytes (bytesPadded2 m m.sizeofTSimAcc) a.volumeSliceAccA_dim
        + optBytes (bytesPadded2 m m.sizeofTSimAcc) a.volumeSliceAccB_dim
        + optBytes (bytesPadded2 m m.sizeofTSimAcc) a.volumeAxisAcc_dim
      else 0)
  (bytes : ℚ) / (1024 * 1024)

/-- `Sgm::getDeviceMemoryConsumptionUnpadded`: same buffers, unpadded. -/
def Sgm.getDeviceMemoryConsumptionUnpadded (eng : Sgm) (m : MemEnv) (a : SgmAllocation) : ℚ :=
  let bytes :=
    bytesUnpadded2 m.sizeofDepth a.depths_dmp_dim
    + bytesUnpadded2 m.sizeofDepthSim a.depthSimMap_dim
    + bytesUnpadded3 m.sizeofTSim a.volumeBestSim_dim
    + bytesUnpadded3 m.sizeofTSim a.volumeSecBestSim_dim
    + (if eng.sgmParams.doSgmOptimizeVolume then
        optBytes (bytesUnpadded2 m.sizeofTSimAcc) a.volumeSliceAccA_dim
        + optBytes (bytesUnpadded2 m.sizeofTSimAcc) a.volumeSliceAccB_dim
        + optBytes (bytesUnpadded2 m.sizeofTSimAcc) a.volumeAxisAcc_dim
      else 0)
  (bytes : ℚ) / (1024 * 1024)

/-- Error raised by `sgmRc` on a caller-contract violation
(`ALICEVISION_THROW_ERROR`): identifies the offending reference camera and
its view id. -/
structure SgmError where
  rc : Nat
  viewId : Nat
deriving DecidableEq, Repr

/-- The CUDA kernels whose internals no claim depends on, as abstract
parameters, so every theorem about the orchestration holds for any kernel
implementation:
* `similarityCost tc vx vy d` — the per-pixel-per-depth-per-camera matching
  cost fed to the fusion kernel (the spec treats the exact formula as an
  external, swappable policy; the reference camera, depth values and
  parameters are fixed per tile and captured by the function);
* `volumeOptimize inputVolume sgmParams depthCount roi` — the
  `cuda_volumeOptimize` regularization over the input volume (its scratch
  accumulation buffers are unobservable and elided);
* `volumeRetrieveBestDepth depths volume sgmParams depthRange roi` — the
  `cuda_volumeRetrieveBestDepth` winner-take-all extraction. -/
structure DeviceKernels where
  similarityCost : Nat → Nat → Nat → Nat → Nat
  volumeOptimize : Volume → SgmParams → Nat → ROI → Volume
  volumeRetrieveBestDepth : (Nat → Int) → Volume → SgmParams → VRange → ROI → DepthSimMap

/-- `DeviceCache::getInstance().requestCamera(cam, scale, mp)`: modelled by
appending the key `(cam, scale)` to the request trace. -/
def requestCamera (cam scale : Nat) (s : SgmBuffers) : SgmBuffers :=
  { s with deviceCacheTrace := s.deviceCacheTrace ++ [(cam, scale)] }

/-- Modelled from the spec: `cuda_volumeInitialize` (a CUDA kernel outside
the translated source) "resets both volumes to the worst score (255) first":
it sets every cell of the volume buffer to the given value. -/
def cuda_volumeInit (value : Nat) : Volume := fun _ _ _ => value

/-- Whether the fusion kernel touches cell `(vx, vy, d)` for a target camera
whose valid depth-index range is `[firstDepth, lastDepth)`: the cell lies in
the downscaled region of interest and the depth index in the range. -/
def coveredCell (roi : ROI) (firstDepth lastDepth vx vy d : Nat) : Bool :=
  decide (vx < roiWidth roi) && decide (vy < roiHeight roi)
    && decide (firstDepth ≤ d) && decide (d < lastDepth)

/-- Insert a new cost into the running `(best, secondBest)` pair for one
cell: the two lowest costs seen so far. -/
def updateTwoBest (c best secBest : Nat) : Nat × Nat :=
  if c < best then (c, best)
  else if c < secBest then (best, c)
  else (best, secBest)

/-- Modelled from the spec: `cuda_volumeComputeSimilarity` (a CUDA kernel
outside the translated source).  Per the spec the two volumes track "the two
lowest per-(pixel, depth) costs seen across processed target cameras";
one kernel launch folds one target camera's cost into every cell covered by
that camera's valid depth-index range inside the region of interest, and
leaves every other cell unchanged. -/
def cuda_volumeComputeSimilarity (best secBest : Volume)
    (cost : Nat → Nat → Nat → Nat → Nat) (tc firstDepth lastDepth : Nat)
    (roi : ROI) : Volume × Volume :=
  ( fun vx vy d =>
      if coveredCell roi firstDepth lastDepth vx vy d then
        (updateTwoBest (cost tc vx vy d) (best vx vy d) (secBest vx vy d)).fst
      else best vx vy d
  , fun vx vy d =>
      if coveredCell roi firstDepth lastDepth vx vy d then
        (updateTwoBest (cost tc vx vy d) (best vx vy d) (secBest vx vy d)).snd
      else secBest vx vy d )

/-- The start of `Sgm::computeSimilarityVolumes`, before the per-target-
camera loop: initialize both similarity volumes at 255, then request the
reference device camera from the cache at `sgmParams.scale`. -/
def Sgm.fusionInitState (eng : Sgm) (tile : Tile) (s : SgmBuffers) : SgmBuffers :=
  requestCamera tile.rc eng.sgmParams.scale
    { s with volumeBestSim := cuda_volumeInit 255
           , volumeSecBestSim := cuda_volumeInit 255 }

/-- One iteration of the per-target-camera loop in
`Sgm::computeSimilarityVolumes`: read the camera's depth-index limits
`(firstDepth, count)`, request the target device camera from the cache at
`sgmParams.scale`, and launch the fusion kernel over the covered cells. -/
def Sgm.fuseOneCamera (eng : Sgm) (k : DeviceKernels) (roi : ROI)
    (s : SgmBuffers) (p : Nat × (Nat × Nat)) : SgmBuffers :=
  let tc := p.fst
  let firstDepth := p.snd.fst
  let lastDepth := firstDepth + p.snd.snd
  let s := requestCamera tc eng.sgmParams.scale s
  let vols := cuda_volumeComputeSimilarity s.volumeBestSim s.volumeSecBestSim
      k.similarityCost tc firstDepth lastDepth roi
  { s with volumeBestSim := vols.fst, volumeSecBestSim := vols.snd }

/-- `Sgm::computeSimilarityVolumes`: downscale the region of interest,
initialize both volumes at 255, request the reference camera, then fold the
fusion kernel over the target cameras paired with their depth limits. -/
def Sgm.computeSimilarityVolumes (eng : Sgm) (k : DeviceKernels)
    (tile : Tile) (dl : SgmDepthList) (s : SgmBuffers) : SgmBuffers :=
  let downscaledRoi := downscaleROI tile.roi (eng.sgmParams.scale * eng.sgmParams.stepXY)
  (tile.sgmTCams.zip dl.depthsTcLimits).foldl
    (Sgm.fuseOneCamera eng k downscaledRoi)
    (Sgm.fusionInitState eng tile s)

/-- `Sgm::optimizeSimilarityVolume`: downscale the region of interest,
request the reference camera at `sgmParams.scale`, then launch
`cuda_volumeOptimize` with the second-best volume as input volume and the
best-similarity buffer as output volume (the source reuses the best buffer
to hold the optimized similarity). -/
def Sgm.optimizeSimilarityVolume (eng : Sgm) (k : DeviceKernels)
    (tile : Tile) (dl : SgmDepthList) (s : SgmBuffers) : SgmBuffers :=
  let downscaledRoi := downscaleROI tile.roi (eng.sgmParams.scale * eng.sgmParams.stepXY)
  let s := requestCamera tile.rc eng.sgmParams.scale s
  { s with volumeBestSim :=
      k.volumeOptimize s.volumeSecBestSim eng.sgmParams dl.depths.length downscaledRoi }

/-- `Sgm::retrieveBestDepth`: downscale the region of interest, build the
depth range `[0, depths.size())`, request the reference camera at scale 1,
then launch `cuda_volumeRetrieveBestDepth` reading `_depths_dmp` and the
best-similarity buffer and writing the depth/sim map. -/
def Sgm.retrieveBestDepth (eng : Sgm) (k : DeviceKernels)
    (tile : Tile) (dl : SgmDepthList) (s : SgmBuffers) : SgmBuffers :=
  let downscaledRoi := downscaleROI tile.roi (eng.sgmParams.scale * eng.sgmParams.stepXY)
  let depthRange : VRange := { lo := 0, hi := dl.depths.length }
  let s := requestCamera tile.rc 1 s
  { s with depthSimMap :=
      (k.volumeRetrieveBestDepth s.depths_dmp s.volumeBestSim eng.sgmParams
        depthRange downscaledRoi) }

/-- `sgmRc`, lines 112–117: copy the depth data into the page-locked host
buffer (`_depths_hmh(i, 0) = depths[i]` for `i < depths.size()`, other
entries untouched), then copy the whole host buffer to `_depths_dmp`. -/
def Sgm.uploadDepths (dl : SgmDepthList) (s : SgmBuffers) : SgmBuffers :=
  let hmh : Nat → Int := fun i =>
    if h : i < dl.depths.length then dl.depths.get ⟨i, h⟩ else s.depths_hmh i
  { s with depths_hmh := hmh, depths_dmp := hmh }

/-- `sgmRc` through its fusion stage (lines 112–125): upload the depths,
compute the similarity volumes, and — when there are fewer than two target
cameras — copy the best volume into the second-best volume. -/
def Sgm.sgmRcFused (eng : Sgm) (k : DeviceKernels)
    (tile : Tile) (dl : SgmDepthList) (s : SgmBuffers) : SgmBuffers :=
  let s := Sgm.uploadDepths dl s
  let s := Sgm.computeSimilarityVolumes eng k tile dl s
  if tile.sgmTCams.length < 2 then
    { s with volumeSecBestSim := s.volumeBestSim }
  else s

/-- `sgmRc` through its optimization stage (lines 112–141): after fusion,
either optimize the volume (when `doSgmOptimizeVolume` is set) or copy the
second-best volume into the best buffer unchanged, so downstream code reads
the best buffer as the final cost volume either way. -/
def Sgm.sgmRcFinalVolume (eng : Sgm) (k : DeviceKernels)
    (tile : Tile) (dl : SgmDepthList) (s : SgmBuffers) : SgmBuffers :=
  let s := Sgm.sgmRcFused eng k tile dl s
  if eng.sgmParams.doSgmOptimizeVolume then
    Sgm.optimizeSimilarityVolume eng k tile dl s
  else
    { s with volumeBestSim := s.volumeSecBestSim }

/-- `Sgm::sgmRc`: throw (returning the current, unmodified state) when the
tile has no target cameras or the depth list is empty; otherwise run the
pipeline and retrieve the best depth.  The intermediate-result exports are
file I/O only and touch no engine buffer; they are omitted. -/
def Sgm.sgmRc (eng : Sgm) (k : DeviceKernels)
    (tile : Tile) (dl : SgmDepthList) (s : SgmBuffers) :
    Option SgmError × SgmBuffers :=
  if tile.sgmTCams.isEmpty || dl.depths.isEmpty then
    (some { rc := tile.rc, viewId := eng.mp.getViewId tile.rc }, s)
  else
    (none, Sgm.retrieveBestDepth eng k tile dl (Sgm.sgmRcFinalVolume eng k tile dl s))

/-! ## Helper lemmas -/

/-- `updateTwoBest` keeps the pair ordered. -/
theorem updateTwoBest_fst_le_snd (c best secBest : Nat) (h : best ≤ secBest) :
    (updateTwoBest c best secBest).fst ≤ (updateTwoBest c best secBest).snd := by
  unfold updateTwoBest
  split_ifs <;> omega

/-- One fusion-loop iteration keeps the best volume pointwise below the
second-best volume. -/
theorem fuseOneCamera_le (eng : Sgm) (k : DeviceKernels) (roi : ROI)
    (s : SgmBuffers) (p : Nat × (Nat × Nat))
    (h : ∀ x y d, s.volumeBestSim x y d ≤ s.volumeSecBestSim x y d) :
    ∀ x y d, (Sgm.fuseOneCamera eng k roi s p).volumeBestSim x y d
      ≤ (Sgm.fuseOneCamera eng k roi s p).volumeSecBestSim x y d := by
  intro x y d
  simp only [Sgm.fuseOneCamera, requestCamera, cuda_volumeComputeSimilarity]
  by_cases hc : coveredCell roi p.snd.fst (p.snd.fst + p.snd.snd) x y d
  · simp only [hc, if_true]
    exact updateTwoBest_fst_le_snd _ _ _ (h x y d)
  · simp only [hc, if_false]
    exact h x y d

/-- The whole fusion loop keeps the best volume pointwise below the
second-best volume. -/
theorem fuse_foldl_le (eng : Sgm) (k : DeviceKernels) (roi : ROI)
    (l : List (Nat × (Nat × Nat))) (s : SgmBuffers)
    (h : ∀ x y d, s.volumeBestSim x y d ≤ s.volumeSecBestSim x y d) :
    ∀ x y d, (l.foldl (Sgm.fuseOneCamera eng k roi) s).volumeBestSim x y d
      ≤ (l.foldl (Sgm.fuseOneCamera eng k roi) s).volumeSecBestSim x y d := by
  induction l generalizing s with
  | nil => exact h
  | cons p rest ih =>
      exact ih (Sgm.fuseOneCamera eng k roi s p) (fuseOneCamera_le eng k roi s p h)

/-- One fusion-loop iteration leaves a cell untouched when the camera's
valid depth range does not cover it. -/
theorem fuseOneCamera_uncovered (eng : Sgm) (k : DeviceKernels) (roi : ROI)
    (s : SgmBuffers) (p : Nat × (Nat × Nat)) (x y d : Nat)
    (h : coveredCell roi p.snd.fst (p.snd.fst + p.snd.snd) x y d = false) :
    (Sgm.fuseOneCamera eng k roi s p).volumeBestSim x y d = s.volumeBestSim x y d
      ∧ (Sgm.fuseOneCamera eng k roi s p).volumeSecBestSim x y d = s.volumeSecBestSim x y d := by
  simp only [Sgm.fuseOneCamera, requestCamera, cuda_volumeComputeSimilarity, h]
  simp

/-- The whole fusion loop leaves a cell untouched when no camera in the
list covers it. -/
theorem fuse_foldl_uncovered (eng : Sgm) (k : DeviceKernels) (roi : ROI)
    (l : List (Nat × (Nat × Nat))) (s : SgmBuffers) (x y d : Nat)
    (h : ∀ p ∈ l, coveredCell roi p.snd.fst (p.snd.fst + p.snd.snd) x y d = false) :
    (l.foldl (Sgm.fuseOneCamera eng k roi) s).volumeBestSim x y d = s.volumeBestSim x y d
      ∧ (l.foldl (Sgm.fuseOneCamera eng k roi) s).volumeSecBestSim x y d
        = s.volumeSecBestSim x y d := by
  induction l generalizing s with
  | nil => exact ⟨rfl, rfl⟩
  | cons p rest ih =>
      have hp := fuseOneCamera_uncovered eng k roi s p x y d (h p (by simp))
      have hr := ih (Sgm.fuseOneCamera eng k roi s p)
        (fun q hq => h q (List.mem_cons_of_mem p hq))
      exact ⟨hp.1 ▸ hr.1, hp.2 ▸ hr.2⟩

/-- The fusion loop does not change the allocation record. -/
theorem fuse_foldl_alloc (eng : Sgm) (k : DeviceKernels) (roi : ROI)
    (l : List (Nat × (Nat × Nat))) (s : SgmBuffers) :
    (l.foldl (Sgm.fuseOneCamera eng k roi) s).alloc = s.alloc := by
  induction l generalizing s with
  | nil => rfl
  | cons p rest ih => exact ih (Sgm.fuseOneCamera eng k roi s p)

/-- The fusion loop does not change the depth buffers. -/
theorem fuse_foldl_depths (eng : Sgm) (k : DeviceKernels) (roi : ROI)
    (l : List (Nat × (Nat × Nat))) (s : SgmBuffers) :
    (l.foldl (Sgm.fuseOneCamera eng k roi) s).depths_hmh = s.depths_hmh
      ∧ (l.foldl (Sgm.fuseOneCamera eng k roi) s).depths_dmp = s.depths_dmp := by
  induction l generalizing s with
  | nil => exact ⟨rfl, rfl⟩
  | cons p rest ih => exact ih (Sgm.fuseOneCamera eng k roi s p)

/-- The fusion loop appends one cache request per target camera, at the
matching scale, in loop order. -/
theorem fuse_foldl_trace (eng : Sgm) (k : DeviceKernels) (roi : ROI)
    (l : List (Nat × (Nat × Nat))) (s : SgmBuffers) :
    (l.foldl (Sgm.fuseOneCamera eng k roi) s).deviceCacheTrace
      = s.deviceCacheTrace ++ l.map (fun p => (p.fst, eng.sgmParams.scale)) := by
  induction l generalizing s with
  | nil => simp
  | cons p rest ih =>
      simp only [List.foldl_cons, List.map_cons]
      rw [ih]
      simp [Sgm.fuseOneCamera, requestCamera]

/-! ## Claim theorems -/

/-- C1: `sgmRc` raises an error if and only if the tile's target-camera
list is empty or the depth-hypothesis list is empty, and in the failure
case it raises before writing to any engine buffer: the returned state is
exactly the input state. -/
theorem sgmRc_error_iff_empty (eng : Sgm) (k : DeviceKernels)
    (tile : Tile) (dl : SgmDepthList) (s : SgmBuffers) :
    ((Sgm.sgmRc eng k tile dl s).fst.isSome
        ↔ (tile.sgmTCams = [] ∨ dl.depths = []))
      ∧ ((Sgm.sgmRc eng k tile dl s).fst.isSome
        → (Sgm.sgmRc eng k tile dl s).snd = s) := by
  unfold Sgm.sgmRc
  split_ifs with h
  · simp only [Bool.or_eq_true, List.isEmpty_iff] at h
    exact ⟨⟨fun _ => h, fun _ => rfl⟩, fun _ => rfl⟩
  · simp only [Bool.or_eq_true, List.isEmpty_iff] at h
    push_neg at h
    constructor
    · simp only [Option.isSome_none, Bool.false_eq_true, false_iff]
      intro hor
      rcases hor with h1 | h2
      · exact h.1 h1
      · exact h.2 h2
    · intro hs
      simp at hs

/-- C2: for a tile with exactly one target camera, after the fusion stage
of `sgmRc` (and before aggregation) the second-best volume equals the best
volume cell for cell, because best is copied into second-best whenever
fewer than two target cameras are present. -/
theorem sgmRcFused_single_tc (eng : Sgm) (k : DeviceKernels)
    (tile : Tile) (dl : SgmDepthList) (s : SgmBuffers)
    (h : tile.sgmTCams.length = 1) :
    ∀ x y d, (Sgm.sgmRcFused eng k tile dl s).volumeSecBestSim x y d
      = (Sgm.sgmRcFused eng k tile dl s).volumeBestSim x y d := by
  intro x y d
  unfold Sgm.sgmRcFused
  rw [h]
  simp

/-- C3: with volume optimization disabled, the final best buffer read by
depth extraction equals the fused second-best volume exactly, and the
output depth/sim map equals the retrieval kernel applied directly to the
fused second-best volume. -/
theorem sgmRc_noOptimize_passthrough (eng : Sgm) (k : DeviceKernels)
    (tile : Tile) (dl : SgmDepthList) (s : SgmBuffers)
    (hopt : eng.sgmParams.doSgmOptimizeVolume = false)
    (htc : tile.sgmTCams ≠ []) (hd : dl.depths ≠ []) :
    ((Sgm.sgmRcFinalVolume eng k tile dl s).volumeBestSim
        = (Sgm.sgmRcFused eng k tile dl s).volumeSecBestSim)
      ∧ ((Sgm.sgmRc eng k tile dl s).snd.depthSimMap
        = k.volumeRetrieveBestDepth (Sgm.sgmRcFused eng k tile dl s).depths_dmp
            (Sgm.sgmRcFused eng k tile dl s).volumeSecBestSim eng.sgmParams
            { lo := 0, hi := dl.depths.length }
            (downscaleROI tile.roi (eng.sgmParams.scale * eng.sgmParams.stepXY))) := by
  have h1 : Sgm.sgmRcFinalVolume eng k tile dl s
      = { Sgm.sgmRcFused eng k tile dl s with
          volumeBestSim := (Sgm.sgmRcFused eng k tile dl s).volumeSecBestSim } := by
    unfold Sgm.sgmRcFinalVolume
    rw [hopt]
    simp
  refine ⟨by rw [h1], ?_⟩
  unfold Sgm.sgmRc
  rw [if_neg (by simp [List.isEmpty_iff, htc, hd])]
  simp only [Sgm.retrieveBestDepth, requestCamera]
  rw [h1]

/-- C4: with at least two target cameras, after fusion over all target
cameras the second-best volume is pointwise at least the best volume at
every cell covered by some target camera's valid depth range. -/
theorem computeSimilarityVolumes_best_le_secondBest (eng : Sgm) (k : DeviceKernels)
    (tile : Tile) (dl : SgmDepthList) (s : SgmBuffers)
    (hN : 2 ≤ tile.sgmTCams.length) (x y d : Nat)
    (hcov : ∃ p ∈ tile.sgmTCams.zip dl.depthsTcLimits,
        coveredCell (downscaleROI tile.roi (eng.sgmParams.scale * eng.sgmParams.stepXY))
          p.snd.fst (p.snd.fst + p.snd.snd) x y d = true) :
    (Sgm.computeSimilarityVolumes eng k tile dl s).volumeBestSim x y d
      ≤ (Sgm.computeSimilarityVolumes eng k tile dl s).volumeSecBestSim x y d := by
  unfold Sgm.computeSimilarityVolumes
  exact fuse_foldl_le eng k _ _ (Sgm.fusionInitState eng tile s)
    (fun _ _ _ => le_refl 255) x y d

/-- C5: at the start of fusion both volumes hold 255 at every cell, before
any per-target-camera accumulation; consequently every cell covered by no
target camera's valid depth range still holds 255 in both volumes after
fusion completes. -/
theorem computeSimilarityVolumes_init255_uncovered255 (eng : Sgm) (k : DeviceKernels)
    (tile : Tile) (dl : SgmDepthList) (s : SgmBuffers) :
    (∀ x y d, (Sgm.fusionInitState eng tile s).volumeBestSim x y d = 255
        ∧ (Sgm.fusionInitState eng tile s).volumeSecBestSim x y d = 255)
      ∧ (∀ x y d,
          (∀ p ∈ tile.sgmTCams.zip dl.depthsTcLimits,
            coveredCell (downscaleROI tile.roi (eng.sgmParams.scale * eng.sgmParams.stepXY))
              p.snd.fst (p.snd.fst + p.snd.snd) x y d = false) →
          (Sgm.computeSimilarityVolumes eng k tile dl s).volumeBestSim x y d = 255
            ∧ (Sgm.computeSimilarityVolumes eng k tile dl s).volumeSecBestSim x y d = 255) := by
  constructor
  · intro x y d
    exact ⟨rfl, rfl⟩
  · intro x y d h
    unfold Sgm.computeSimilarityVolumes
    exact fuse_foldl_uncovered eng k _ _ (Sgm.fusionInitState eng tile s) x y d h

/-- C6: with volume optimization enabled, the optimization stage reads the
fused second-best volume as its sole volume input and writes the optimized
result into the best buffer, leaving the second-best volume unchanged. -/
theorem sgmRcFinalVolume_optimize_frame (eng : Sgm) (k : DeviceKernels)
    (tile : Tile) (dl : SgmDepthList) (s : SgmBuffers)
    (hopt : eng.sgmParams.doSgmOptimizeVolume = true) :
    ((Sgm.sgmRcFinalVolume eng k tile dl s).volumeSecBestSim
        = (Sgm.sgmRcFused eng k tile dl s).volumeSecBestSim)
      ∧ ((Sgm.sgmRcFinalVolume eng k tile dl s).volumeBestSim
        = k.volumeOptimize (Sgm.sgmRcFused eng k tile dl s).volumeSecBestSim
            eng.sgmParams dl.depths.length
            (downscaleROI tile.roi (eng.sgmParams.scale * eng.sgmParams.stepXY))) := by
  unfold Sgm.sgmRcFinalVolume
  rw [hopt]
  simp [Sgm.optimizeSimilarityVolume, requestCamera]

/-- C7: construction allocates every buffer exactly once with the
configured sizes — depth buffers of length `maxDepths` (host staging and
device), a depth/sim map and two volumes at the maximum downscaled tile
size, and the three optimization accumulation buffers only when
`doSgmOptimizeVolume` is set — and processing a tile never changes the
allocation record. -/
theorem mkBuffers_allocation (eng : Sgm) (k : DeviceKernels)
    (tile : Tile) (dl : SgmDepthList) (s : SgmBuffers) :
    ((Sgm.mkBuffers eng).alloc.depths_hmh_dim = (eng.sgmParams.maxDepths, 1)
      ∧ (Sgm.mkBuffers eng).alloc.depths_dmp_dim = (eng.sgmParams.maxDepths, 1)
      ∧ (Sgm.mkBuffers eng).alloc.depthSimMap_dim
          = (divUp eng.tileParams.width (eng.sgmParams.scale * eng.sgmParams.stepXY),
             divUp eng.tileParams.height (eng.sgmParams.scale * eng.sgmParams.stepXY))
      ∧ (Sgm.mkBuffers eng).alloc.volumeBestSim_dim
          = (divUp eng.tileParams.width (eng.sgmParams.scale * eng.sgmParams.stepXY),
             divUp eng.tileParams.height (eng.sgmParams.scale * eng.sgmParams.stepXY),
             eng.sgmParams.maxDepths)
      ∧ (Sgm.mkBuffers eng).alloc.volumeSecBestSim_dim
          = (divUp eng.tileParams.width (eng.sgmParams.scale * eng.sgmParams.stepXY),
             divUp eng.tileParams.height (eng.sgmParams.scale * eng.sgmParams.stepXY),
             eng.sgmParams.maxDepths)
      ∧ (eng.sgmParams.doSgmOptimizeVolume = true →
          (Sgm.mkBuffers eng).alloc.volumeSliceAccA_dim
              = some (max (divUp eng.tileParams.width (eng.sgmParams.scale * eng.sgmParams.stepXY))
                          (divUp eng.tileParams.height (eng.sgmParams.scale * eng.sgmParams.stepXY)),
                      eng.sgmParams.maxDepths)
            ∧ (Sgm.mkBuffers eng).alloc.volumeSliceAccB_dim
              = some (max (divUp eng.tileParams.width (eng.sgmParams.scale * eng.sgmParams.stepXY))
                          (divUp eng.tileParams.height (eng.sgmParams.scale * eng.sgmParams.stepXY)),
                      eng.sgmParams.maxDepths)
            ∧ (Sgm.mkBuffers eng).alloc.volumeAxisAcc_dim
              = some (max (divUp eng.tileParams.width (eng.sgmParams.scale * eng.sgmParams.stepXY))
                          (divUp eng.tileParams.height (eng.sgmParams.scale * eng.sgmParams.stepXY)),
                      1))
      ∧ (eng.sgmParams.doSgmOptimizeVolume = false →
          (Sgm.mkBuffers eng).alloc.volumeSliceAccA_dim = none
            ∧ (Sgm.mkBuffers eng).alloc.volumeSliceAccB_dim = none
            ∧ (Sgm.mkBuffers eng).alloc.volumeAxisAcc_dim = none))
    ∧ ((Sgm.sgmRc eng k tile dl s).snd.alloc = s.alloc) := by
  constructor
  · refine ⟨rfl, rfl, rfl, rfl, rfl, fun h => ?_, fun h => ?_⟩
    · simp [Sgm.mkBuffers, h]
    · simp [Sgm.mkBuffers, h]
  · have hcv : ∀ s', (Sgm.computeSimilarityVolumes eng k tile dl s').alloc = s'.alloc := by
      intro s'
      unfold Sgm.computeSimilarityVolumes
      rw [fuse_foldl_alloc]
      rfl
    have hfused : (Sgm.sgmRcFused eng k tile dl s).alloc = s.alloc := by
      unfold Sgm.sgmRcFused
      split_ifs <;> simp [hcv, Sgm.uploadDepths]
    have hfinal : (Sgm.sgmRcFinalVolume eng k tile dl s).alloc = s.alloc := by
      unfold Sgm.sgmRcFinalVolume
      split_ifs <;> simp [Sgm.optimizeSimilarityVolume, requestCamera, hfused]
    unfold Sgm.sgmRc
    split_ifs with h
    · rfl
    · simp [Sgm.retrieveBestDepth, requestCamera, hfinal]

/-- C8: for identical tile geometry and configuration dimensions, both the
padded and the unpadded memory-consumption query with volume optimization
enabled are at least the query with it disabled. -/
theorem memoryConsumption_monotone (mp : MultiViewParams) (tp : TileParams)
    (p : SgmParams) (m : MemEnv) :
    Sgm.getDeviceMemoryConsumption
        { mp := mp, tileParams := tp, sgmParams := { p with doSgmOptimizeVolume := false } } m
        (Sgm.mkBuffers
          { mp := mp, tileParams := tp,
            sgmParams := { p with doSgmOptimizeVolume := false } }).alloc
      ≤ Sgm.getDeviceMemoryConsumption
        { mp := mp, tileParams := tp, sgmParams := { p with doSgmOptimizeVolume := true } } m
        (Sgm.mkBuffers
          { mp := mp, tileParams := tp,
            sgmParams := { p with doSgmOptimizeVolume := true } }).alloc
    ∧ Sgm.getDeviceMemoryConsumptionUnpadded
        { mp := mp, tileParams := tp, sgmParams := { p with doSgmOptimizeVolume := false } } m
        (Sgm.mkBuffers
          { mp := mp, tileParams := tp,
            sgmParams := { p with doSgmOptimizeVolume := false } }).alloc
      ≤ Sgm.getDeviceMemoryConsumptionUnpadded
        { mp := mp, tileParams := tp, sgmParams := { p with doSgmOptimizeVolume := true } } m
        (Sgm.mkBuffers
          { mp := mp, tileParams := tp,
            sgmParams := { p with doSgmOptimizeVolume := true } }).alloc := by
  constructor <;>
  · simp only [Sgm.getDeviceMemoryConsumption, Sgm.getDeviceMemoryConsumptionUnpadded,
      Sgm.mkBuffers, optBytes]
    simp only [Bool.false_eq_true, if_false, if_true, add_zero]
    rw [div_le_div_iff_of_pos_right (by norm_num : (0 : ℚ) < 1024 * 1024)]
    exact_mod_cast Nat.le_add_right _ _

/-- The padded megabyte total the spec's words describe for the memory
query: "byte totals across all buffers owned by the engine instance",
"every buffer the constructor allocates, including the host-staging
depth-hypothesis buffer".  This definition follows the spec's words — the
code's sum plus the host-staging buffer `_depths_hmh` (contiguous host
memory, so its padded size equals its unpadded size) — for comparison
with `Sgm.getDeviceMemoryConsumption`, which is translated from the
source. -/
def specMemoryConsumptionAllBuffers (eng : Sgm) (m : MemEnv) (a : SgmAllocation) : ℚ :=
  let bytes :=
    bytesUnpadded2 m.sizeofDepth a.depths_hmh_dim
    + bytesPadded2 m m.sizeofDepth a.depths_dmp_dim
    + bytesPadded2 m m.sizeofDepthSim a.depthSimMap_dim
    + bytesPadded3 m m.sizeofTSim a.volumeBestSim_dim
    + bytesPadded3 m m.sizeofTSim a.volumeSecBestSim_dim
    + (if eng.sgmParams.doSgmOptimizeVolume then
        optBytes (bytesPadded2 m m.sizeofTSimAcc) a.volumeSliceAccA_dim
        + optBytes (bytesPadded2 m m.sizeofTSimAcc) a.volumeSliceAccB_dim
        + optBytes (bytesPadded2 m m.sizeofTSimAcc) a.volumeAxisAcc_dim
      else 0)
  (bytes : ℚ) / (1024 * 1024)

/-- A small concrete engine configuration: 8×8 tile, scale 1, step 1,
4 depth hypotheses, optimization disabled. -/
def engSmall : Sgm :=
  { mp := { getViewId := fun i => i + 10, ncams := 2 }
  , tileParams := { width := 8, height := 8 }
  , sgmParams :=
      { scale := 1, stepXY := 1, maxDepths := 4, doSgmOptimizeVolume := false
      , exportIntermediateResults := false, filteringAxes := "XY" } }

/-- A concrete memory environment: identity pitch (no row padding) and the
usual element sizes (4-byte depth, 8-byte depth/sim cell, 1-byte volume
cell, 4-byte accumulation cell). -/
def memSmall : MemEnv :=
  { pitch := fun n => n, sizeofDepth := 4, sizeofDepthSim := 8
  , sizeofTSim := 1, sizeofTSimAcc := 4 }

/-- C9 counterexample: on a concrete configuration the memory query of the
source differs from the all-buffers total the claim describes, because the
source never sums the host-staging buffer `_depths_hmh` (16 bytes here:
the code reports 1040 bytes, the claimed total is 1056 bytes). -/
theorem memoryConsumption_ne_allBuffers :
    Sgm.getDeviceMemoryConsumption engSmall memSmall (Sgm.mkBuffers engSmall).alloc
      ≠ specMemoryConsumptionAllBuffers engSmall memSmall (Sgm.mkBuffers engSmall).alloc := by
  simp only [Sgm.getDeviceMemoryConsumption, specMemoryConsumptionAllBuffers, Sgm.mkBuffers,
    engSmall, memSmall, bytesPadded2, bytesPadded3, bytesUnpadded2, bytesUnpadded3, divUp,
    optBytes]
  norm_num

/-- C9 (amended): the queries return the padded respectively unpadded byte
totals of the device buffers the constructor allocates — `_depths_dmp`, the
depth/sim map, the two similarity volumes, and, exactly when volume
optimization is enabled, the three accumulation buffers — divided by
1024 × 1024; the host-staging buffer `_depths_hmh` is not included. -/
theorem memoryConsumption_deviceBuffers (eng : Sgm) (m : MemEnv) :
    Sgm.getDeviceMemoryConsumption eng m (Sgm.mkBuffers eng).alloc
      = ((bytesPadded2 m m.sizeofDepth (eng.sgmParams.maxDepths, 1)
          + bytesPadded2 m m.sizeofDepthSim
              (divUp eng.tileParams.width (eng.sgmParams.scale * eng.sgmParams.stepXY),
               divUp eng.tileParams.height (eng.sgmParams.scale * eng.sgmParams.stepXY))
          + bytesPadded3 m m.sizeofTSim
              (divUp eng.tileParams.width (eng.sgmParams.scale * eng.sgmParams.stepXY),
               divUp eng.tileParams.height (eng.sgmParams.scale * eng.sgmParams.stepXY),
               eng.sgmParams.maxDepths)
          + bytesPadded3 m m.sizeofTSim
              (divUp eng.tileParams.width (eng.sgmParams.scale * eng.sgmParams.stepXY),
               divUp eng.tileParams.height (eng.sgmParams.scale * eng.sgmParams.stepXY),
               eng.sgmParams.maxDepths)
          + (if eng.sgmParams.doSgmOptimizeVolume then
              bytesPadded2 m m.sizeofTSimAcc
                (max (divUp eng.tileParams.width (eng.sgmParams.scale * eng.sgmParams.stepXY))
                     (divUp eng.tileParams.height (eng.sgmParams.scale * eng.sgmParams.stepXY)),
                 eng.sgmParams.maxDepths)
              + bytesPadded2 m m.sizeofTSimAcc
                (max (divUp eng.tileParams.width (eng.sgmParams.scale * eng.sgmParams.stepXY))
                     (divUp eng.tileParams.height (eng.sgmParams.scale * eng.sgmParams.stepXY)),
                 eng.sgmParams.maxDepths)
              + bytesPadded2 m m.sizeofTSimAcc
                (max (divUp eng.tileParams.width (eng.sgmParams.scale * eng.sgmParams.stepXY))
                     (divUp eng.tileParams.height (eng.sgmParams.scale * eng.sgmParams.stepXY)),
                 1)
            else 0) : ℕ) : ℚ) / (1024 * 1024)
    ∧ Sgm.getDeviceMemoryConsumptionUnpadded eng m (Sgm.mkBuffers eng).alloc
      = ((bytesUnpadded2 m.sizeofDepth (eng.sgmParams.maxDepths, 1)
          + bytesUnpadded2 m.sizeofDepthSim
              (divUp eng.tileParams.width (eng.sgmParams.scale * eng.sgmParams.stepXY),
               divUp eng.tileParams.height (eng.sgmParams.scale * eng.sgmParams.stepXY))
          + bytesUnpadded3 m.sizeofTSim
              (divUp eng.tileParams.width (eng.sgmParams.scale * eng.sgmParams.stepXY),
               divUp eng.tileParams.height (eng.sgmParams.scale * eng.sgmParams.stepXY),
               eng.sgmParams.maxDepths)
          + bytesUnpadded3 m.sizeofTSim
              (divUp eng.tileParams.width (eng.sgmParams.scale * eng.sgmParams.stepXY),
               divUp eng.tileParams.height (eng.sgmParams.scale * eng.sgmParams.stepXY),
               eng.sgmParams.maxDepths)
          + (if eng.sgmParams.doSgmOptimizeVolume then
              bytesUnpadded2 m.sizeofTSimAcc
                (max (divUp eng.tileParams.width (eng.sgmParams.scale * eng.sgmParams.stepXY))
                     (divUp eng.tileParams.height (eng.sgmParams.scale * eng.sgmParams.stepXY)),
                 eng.sgmParams.maxDepths)
              + bytesUnpadded2 m.sizeofTSimAcc
                (max (divUp eng.tileParams.width (eng.sgmParams.scale * eng.sgmParams.stepXY))
                     (divUp eng.tileParams.height (eng.sgmParams.scale * eng.sgmParams.stepXY)),
                 eng.sgmParams.maxDepths)
              + bytesUnpadded2 m.sizeofTSimAcc
                (max (divUp eng.tileParams.width (eng.sgmParams.scale * eng.sgmParams.stepXY))
                     (divUp eng.tileParams.height (eng.sgmParams.scale * eng.sgmParams.stepXY)),
                 1)
            else 0) : ℕ) : ℚ) / (1024 * 1024) := by
  cases h : eng.sgmParams.doSgmOptimizeVolume <;>
    constructor <;>
      simp [Sgm.getDeviceMemoryConsumption, Sgm.getDeviceMemoryConsumptionUnpadded,
        Sgm.mkBuffers, optBytes, h]

/-- C10: depth retrieval always requests the reference camera from the
device cache at scale 1, regardless of the configured matching scale,
while fusion (and optimization, when enabled) request it at
`sgmParams.scale`: a successful `sgmRc` run appends exactly the request
trace below, and whenever `sgmParams.scale > 1` the two keys used for the
reference camera are distinct. -/
theorem sgmRc_cache_requests (eng : Sgm) (k : DeviceKernels)
    (tile : Tile) (dl : SgmDepthList) (s : SgmBuffers)
    (htc : tile.sgmTCams ≠ []) (hd : dl.depths ≠ []) :
    ((Sgm.retrieveBestDepth eng k tile dl s).deviceCacheTrace
        = s.deviceCacheTrace ++ [(tile.rc, 1)])
      ∧ ((Sgm.sgmRc eng k tile dl s).snd.deviceCacheTrace
        = s.deviceCacheTrace
          ++ ((tile.rc, eng.sgmParams.scale)
              :: (tile.sgmTCams.zip dl.depthsTcLimits).map
                  (fun p => (p.fst, eng.sgmParams.scale)))
          ++ (if eng.sgmParams.doSgmOptimizeVolume then
                [(tile.rc, eng.sgmParams.scale)] else [])
          ++ [(tile.rc, 1)])
      ∧ (1 < eng.sgmParams.scale →
          ((tile.rc, eng.sgmParams.scale) : Nat × Nat) ≠ (tile.rc, 1)) := by
  have hretr : ∀ s', (Sgm.retrieveBestDepth eng k tile dl s').deviceCacheTrace
      = s'.deviceCacheTrace ++ [(tile.rc, 1)] := by
    intro s'
    simp [Sgm.retrieveBestDepth, requestCamera]
  refine ⟨hretr s, ?_, ?_⟩
  · have hcv : ∀ s', (Sgm.computeSimilarityVolumes eng k tile dl s').deviceCacheTrace
        = s'.deviceCacheTrace
          ++ ((tile.rc, eng.sgmParams.scale)
              :: (tile.sgmTCams.zip dl.depthsTcLimits).map
                  (fun p => (p.fst, eng.sgmParams.scale))) := by
      intro s'
      unfold Sgm.computeSimilarityVolumes
      rw [fuse_foldl_trace]
      simp [Sgm.fusionInitState, requestCamera]
    have hfused : (Sgm.sgmRcFused eng k tile dl s).deviceCacheTrace
        = s.deviceCacheTrace
          ++ ((tile.rc, eng.sgmParams.scale)
              :: (tile.sgmTCams.zip dl.depthsTcLimits).map
                  (fun p => (p.fst, eng.sgmParams.scale))) := by
      unfold Sgm.sgmRcFused
      split_ifs <;> simp [hcv, Sgm.uploadDepths]
    have hfinal : (Sgm.sgmRcFinalVolume eng k tile dl s).deviceCacheTrace
        = s.deviceCacheTrace
          ++ ((tile.rc, eng.sgmParams.scale)
              :: (tile.sgmTCams.zip dl.depthsTcLimits).map
                  (fun p => (p.fst, eng.sgmParams.scale)))
          ++ (if eng.sgmParams.doSgmOptimizeVolume then
                [(tile.rc, eng.sgmParams.scale)] else []) := by
      unfold Sgm.sgmRcFinalVolume
      split_ifs with h <;>
        simp [Sgm.optimizeSimilarityVolume, requestCamera, hfused, h]
    unfold Sgm.sgmRc
    rw [if_neg (by simp [List.isEmpty_iff, htc, hd])]
    rw [hretr, hfinal]
  · intro hscale h
    rw [Prod.mk.injEq] at h
    omega

/-! ## Concrete instances for witnesses -/

/-- Concrete kernels for witnesses: an arbitrary bounded cost, identity
optimization, and a retrieval that reads the first depth plane. -/
def kernelsW : DeviceKernels :=
  { similarityCost := fun tc x y d => tc + x + y + d
  , volumeOptimize := fun v _ _ _ => v
  , volumeRetrieveBestDepth := fun _ v _ _ _ => fun x y => ((v x y 0 : Int), 0) }

/-- Like `engSmall` but with volume optimization enabled. -/
def engOptW : Sgm :=
  { mp := { getViewId := fun i => i + 10, ncams := 2 }
  , tileParams := { width := 8, height := 8 }
  , sgmParams :=
      { scale := 1, stepXY := 1, maxDepths := 4, doSgmOptimizeVolume := true
      , exportIntermediateResults := false, filteringAxes := "XY" } }

/-- Like `engSmall` but with matching scale 2. -/
def engScale2W : Sgm :=
  { mp := { getViewId := fun i => i + 10, ncams := 2 }
  , tileParams := { width := 8, height := 8 }
  , sgmParams :=
      { scale := 2, stepXY := 1, maxDepths := 4, doSgmOptimizeVolume := false
      , exportIntermediateResults := false, filteringAxes := "XY" } }

/-- A tile with a single target camera. -/
def tileOneW : Tile :=
  { rc := 0, sgmTCams := [1]
  , roi := { x := { lo := 0, hi := 8 }, y := { lo := 0, hi := 8 } }, nbTiles := 1 }

/-- A tile with two target cameras. -/
def tileTwoW : Tile :=
  { rc := 0, sgmTCams := [1, 2]
  , roi := { x := { lo := 0, hi := 8 }, y := { lo := 0, hi := 8 } }, nbTiles := 1 }

/-- A tile with no target cameras (caller-contract violation). -/
def tileEmptyW : Tile :=
  { rc := 0, sgmTCams := []
  , roi := { x := { lo := 0, hi := 8 }, y := { lo := 0, hi := 8 } }, nbTiles := 1 }

/-- A depth list for one target camera. -/
def dlOneW : SgmDepthList := { depths := [5, 6, 7], depthsTcLimits := [(0, 3)] }

/-- A depth list for two target cameras. -/
def dlTwoW : SgmDepthList := { depths := [5, 6, 7], depthsTcLimits := [(0, 3), (1, 2)] }

/-- The buffers of the small engine. -/
def bufW : SgmBuffers := Sgm.mkBuffers engSmall

/-! ## Witnesses -/

/-- Witness for C1 at a tile with no target cameras. -/
theorem sgmRc_error_iff_empty_witness :
    ((Sgm.sgmRc engSmall kernelsW tileEmptyW dlOneW bufW).fst.isSome
        ↔ (tileEmptyW.sgmTCams = [] ∨ dlOneW.depths = []))
      ∧ ((Sgm.sgmRc engSmall kernelsW tileEmptyW dlOneW bufW).fst.isSome
        → (Sgm.sgmRc engSmall kernelsW tileEmptyW dlOneW bufW).snd = bufW) :=
  sgmRc_error_iff_empty engSmall kernelsW tileEmptyW dlOneW bufW

/-- Witness for C2 at a tile with one target camera. -/
theorem sgmRcFused_single_tc_witness :
    tileOneW.sgmTCams.length = 1
      ∧ (Sgm.sgmRcFused engSmall kernelsW tileOneW dlOneW bufW).volumeSecBestSim 0 0 0
        = (Sgm.sgmRcFused engSmall kernelsW tileOneW dlOneW bufW).volumeBestSim 0 0 0 :=
  ⟨rfl, sgmRcFused_single_tc engSmall kernelsW tileOneW dlOneW bufW rfl 0 0 0⟩

/-- Witness for C3 with optimization disabled. -/
theorem sgmRc_noOptimize_passthrough_witness :
    ((Sgm.sgmRcFinalVolume engSmall kernelsW tileOneW dlOneW bufW).volumeBestSim
        = (Sgm.sgmRcFused engSmall kernelsW tileOneW dlOneW bufW).volumeSecBestSim)
      ∧ ((Sgm.sgmRc engSmall kernelsW tileOneW dlOneW bufW).snd.depthSimMap
        = kernelsW.volumeRetrieveBestDepth
            (Sgm.sgmRcFused engSmall kernelsW tileOneW dlOneW bufW).depths_dmp
            (Sgm.sgmRcFused engSmall kernelsW tileOneW dlOneW bufW).volumeSecBestSim
            engSmall.sgmParams { lo := 0, hi := dlOneW.depths.length }
            (downscaleROI tileOneW.roi
              (engSmall.sgmParams.scale * engSmall.sgmParams.stepXY))) :=
  sgmRc_noOptimize_passthrough engSmall kernelsW tileOneW dlOneW bufW rfl
    (by decide) (by decide)

/-- Witness for C4 at a covered cell with two target cameras. -/
theorem computeSimilarityVolumes_best_le_secondBest_witness :
    (Sgm.computeSimilarityVolumes engSmall kernelsW tileTwoW dlTwoW bufW).volumeBestSim 0 0 0
      ≤ (Sgm.computeSimilarityVolumes engSmall kernelsW tileTwoW dlTwoW bufW).volumeSecBestSim
          0 0 0 :=
  computeSimilarityVolumes_best_le_secondBest engSmall kernelsW tileTwoW dlTwoW bufW
    (by decide) 0 0 0 (by decide)

/-- Witness for C5 at a depth index no target camera covers. -/
theorem computeSimilarityVolumes_init255_uncovered255_witness :
    (Sgm.computeSimilarityVolumes engSmall kernelsW tileTwoW dlTwoW bufW).volumeBestSim 0 0 5
        = 255
      ∧ (Sgm.computeSimilarityVolumes engSmall kernelsW tileTwoW dlTwoW bufW).volumeSecBestSim
          0 0 5 = 255 :=
  (computeSimilarityVolumes_init255_uncovered255 engSmall kernelsW tileTwoW dlTwoW bufW).2
    0 0 5 (by decide)

/-- Witness for C6 with optimization enabled. -/
theorem sgmRcFinalVolume_optimize_frame_witness :
    ((Sgm.sgmRcFinalVolume engOptW kernelsW tileOneW dlOneW
          (Sgm.mkBuffers engOptW)).volumeSecBestSim
        = (Sgm.sgmRcFused engOptW kernelsW tileOneW dlOneW
            (Sgm.mkBuffers engOptW)).volumeSecBestSim)
      ∧ ((Sgm.sgmRcFinalVolume engOptW kernelsW tileOneW dlOneW
            (Sgm.mkBuffers engOptW)).volumeBestSim
        = kernelsW.volumeOptimize
            (Sgm.sgmRcFused engOptW kernelsW tileOneW dlOneW
              (Sgm.mkBuffers engOptW)).volumeSecBestSim
            engOptW.sgmParams dlOneW.depths.length
            (downscaleROI tileOneW.roi
              (engOptW.sgmParams.scale * engOptW.sgmParams.stepXY))) :=
  sgmRcFinalVolume_optimize_frame engOptW kernelsW tileOneW dlOneW
    (Sgm.mkBuffers engOptW) rfl

/-- Witness for C7: the optimization accumulation buffers are allocated
with the expected concrete sizes and processing preserves the allocation. -/
theorem mkBuffers_allocation_witness :
    (Sgm.mkBuffers engOptW).alloc.volumeSliceAccA_dim = some (8, 4)
      ∧ (Sgm.sgmRc engOptW kernelsW tileOneW dlOneW (Sgm.mkBuffers engOptW)).snd.alloc
        = (Sgm.mkBuffers engOptW).alloc :=
  ⟨((mkBuffers_allocation engOptW kernelsW tileOneW dlOneW
        (Sgm.mkBuffers engOptW)).1.2.2.2.2.2.1 rfl).1.trans (by decide)
  , (mkBuffers_allocation engOptW kernelsW tileOneW dlOneW (Sgm.mkBuffers engOptW)).2⟩

/-- Witness for C10 at matching scale 2: retrieval requests scale 1 and the
two reference-camera cache keys are distinct. -/
theorem sgmRc_cache_requests_witness :
    ((Sgm.retrieveBestDepth engScale2W kernelsW tileOneW dlOneW
          (Sgm.mkBuffers engScale2W)).deviceCacheTrace
        = (Sgm.mkBuffers engScale2W).deviceCacheTrace ++ [(0, 1)])
      ∧ ((0, 2) : Nat × Nat) ≠ (0, 1) :=
  ⟨(sgmRc_cache_requests engScale2W kernelsW tileOneW dlOneW (Sgm.mkBuffers engScale2W)
      (by decide) (by decide)).1
  , (sgmRc_cache_requests engScale2W kernelsW tileOneW dlOneW (Sgm.mkBuffers engScale2W)
      (by decide) (by decide)).2.2 (by decide)⟩

end AliceVision
